import Mathlib

/-!
Shallow embedding of the request-orchestration and usage-accounting component
of the gemini-canvas repository (`src/lib/gemini-framework.ts`, class
`EnhancedGeminiFramework`).

External collaborators (the generative-AI SDK and the persistence SDK) are
modelled as environments: each operation receives the outcomes of the network
interactions it would perform (`Except Unit _` mirrors a promise that either
resolves or rejects).  JavaScript numbers that hold token counts are embedded
as `Nat`; scores, costs and means are embedded as exact rationals; `Math.round`
is embedded as `jsRound`.  Every operation additionally returns the list of
external calls it attempted, so that "no network call is made" claims are
expressible.
-/

/-- Embedding of JavaScript `Math.round` (round half toward positive infinity). -/
def jsRound (q : ℚ) : ℤ := ⌊q + 1/2⌋

/-- Embedding of JavaScript `String.prototype.toLowerCase`. -/
def strToLower (s : String) : String := ⟨s.data.map Char.toLower⟩

/-- Substring search on character lists, auxiliary for `strIncludes`. -/
def hasSubstring (pat : List Char) : List Char → Bool
  | [] => pat.isEmpty
  | c :: rest => pat.isPrefixOf (c :: rest) || hasSubstring pat rest

/-- Embedding of JavaScript `s.includes(pat)`. -/
def strIncludes (s pat : String) : Bool := hasSubstring pat.data s.data

/-- One value of the `cache : Map<string, any>` field: the entries stored by
`initializeTiers` are objects `{ content, tokens }`. -/
structure CacheEntry where
  content : String
  tokens : ℕ
deriving DecidableEq, Repr

/-- The `cache` map, embedded as an insertion-ordered association list. -/
abbrev Cache := List (String × CacheEntry)

/-- Embedding of `Map.prototype.has`. -/
def cacheHas (c : Cache) (k : String) : Bool := c.any (fun p => p.1 == k)

/-- Embedding of `Map.prototype.set`. -/
def cacheSet (c : Cache) (k : String) (v : CacheEntry) : Cache :=
  if cacheHas c k then c.map (fun p => if p.1 == k then (k, v) else p)
  else c ++ [(k, v)]

/-- Embedding of `Map.prototype.get`, returning `none` for a missing key. -/
def cacheGet (c : Cache) (k : String) : Option CacheEntry :=
  (c.find? (fun p => p.1 == k)).map (fun p => p.2)

/-- The `TokenStats` record of the source, field for field. -/
structure TokenStats where
  totalTokensUsed : ℕ
  cachedTokens : ℕ
  tier1Tokens : ℕ
  tier2Tokens : ℕ
  tier3Tokens : ℕ
  profundityCheckTokens : ℕ
  finalResponseTokens : ℕ
  memoryAnnotationTokens : ℕ
  multimediaTokens : ℕ
  inputTokens : ℕ
  outputTokens : ℕ
  totalRequests : ℕ
  averageResponseTime : ℤ
  costEstimate : ℚ
deriving DecidableEq, Repr

/-- The zero-initialised statistics set up by the constructor. -/
def initialStats : TokenStats :=
  { totalTokensUsed := 0, cachedTokens := 0, tier1Tokens := 0, tier2Tokens := 0
    tier3Tokens := 0, profundityCheckTokens := 0, finalResponseTokens := 0
    memoryAnnotationTokens := 0, multimediaTokens := 0, inputTokens := 0
    outputTokens := 0, totalRequests := 0, averageResponseTime := 0
    costEstimate := 0 }

/-- One element of the `requestHistory` array. -/
structure RequestEntry where
  timestamp : ℕ
  tokens : ℕ
  response_time : ℕ
  model : String
deriving DecidableEq, Repr

/-- The mutable state of an `EnhancedGeminiFramework` instance.  `genai` and
`supabase` record whether the corresponding SDK client was constructed (the
source holds a client object or `null`; only its presence matters here). -/
structure Framework where
  genai : Bool
  supabase : Bool
  cache : Cache
  stats : TokenStats
  requestHistory : List RequestEntry
deriving DecidableEq, Repr

/-- State produced by the constructor once the two config checks have decided
whether each SDK client exists. -/
def initialFramework (genai supabase : Bool) : Framework :=
  { genai := genai, supabase := supabase, cache := [], stats := initialStats
    requestHistory := [] }

/-- Sum of the `response_time` fields, as accumulated by the
`reduce((sum, req) => sum + req.response_time, 0)` expression. -/
def sumResponseTimes (l : List RequestEntry) : ℕ :=
  l.foldl (fun sum r => sum + r.response_time) 0

/-- Embedding of the private method `updateRequestHistory`: push the new entry,
keep only the last 100 entries (`slice(-100)`), and store the rounded mean of
the retained response times in `averageResponseTime`. -/
def updateRequestHistory (fw : Framework) (tokens responseTime timestamp : ℕ)
    (model : String) : Framework :=
  let pushed := fw.requestHistory ++
    [{ timestamp := timestamp, tokens := tokens, response_time := responseTime
       model := model }]
  let history := if pushed.length > 100 then pushed.drop (pushed.length - 100)
    else pushed
  { fw with
    requestHistory := history
    stats := { fw.stats with
      averageResponseTime :=
        jsRound ((sumResponseTimes history : ℚ) / (history.length : ℚ)) } }

/-- The result object of `assessProfundity`. -/
structure Assessment where
  profundity_score : ℚ
  reasoning : String
deriving DecidableEq, Repr

/-- The fixed keyword vocabulary `complexityIndicators` of the heuristic
fallback in `assessProfundity`. -/
def complexityIndicators : List String :=
  ["consciousness", "philosophy", "quantum", "theoretical", "implications",
   "ethics", "metaphysics", "epistemology", "paradigm", "framework"]

/-- The `reduce` expression of the fallback branch: start from
`min(length / 10, 30)` and add 15 for every vocabulary word contained in the
lower-cased request. -/
def fallbackRawScore (userRequest : String) : ℚ :=
  complexityIndicators.foldl
    (fun acc indicator =>
      acc + (if strIncludes (strToLower userRequest) indicator then 15 else 0))
    (min ((userRequest.length : ℚ) / 10) 30)

/-- The object returned by the fallback branch of `assessProfundity`:
the score is capped at 100, the reasoning is chosen on the uncapped score. -/
def fallbackAssessment (userRequest : String) : Assessment :=
  { profundity_score := min (fallbackRawScore userRequest) 100
    reasoning :=
      if 50 < fallbackRawScore userRequest then
        "Complex theoretical question requiring deep analysis"
      else "Straightforward inquiry" }

/-- Outcomes of the external interactions inside the `try` block of
`assessProfundity`: the parsed assessment returned by the scoring model, the
`countTokens` result for the profundity prompt, and the measured wall-clock
data.  A rejected promise anywhere in the block is the `Except.error` case. -/
structure ProfEnv where
  assessment : Assessment
  usageTokens : ℕ
  responseTime : ℕ
  timestamp : ℕ
deriving DecidableEq, Repr

/-- External calls an operation can attempt, for "no network call" claims. -/
inductive ExtCall
  | generate (model : String) (payload : String)
  | countTokens
  | insert
deriving DecidableEq, Repr

/-- Embedding of `assessProfundity`.  With no generation client the heuristic
fallback runs and nothing else happens; with a client the scoring call is
attempted, and on success the profundity statistics and the request history are
updated.  Returns (new state, assessment, external calls attempted). -/
def assessProfundity (fw : Framework) (userRequest : String)
    (env : Except Unit ProfEnv) : Framework × Assessment × List ExtCall :=
  if fw.genai = false then
    (fw, fallbackAssessment userRequest, [])
  else
    match env with
    | .error _ =>
        (fw, { profundity_score := 25
               reasoning := "Error in assessment, defaulting to low profundity" },
         [.generate "gemini-1.5-flash" userRequest])
    | .ok e =>
        let fw1 : Framework := { fw with stats := { fw.stats with
          profundityCheckTokens := fw.stats.profundityCheckTokens + e.usageTokens
          totalTokensUsed := fw.stats.totalTokensUsed + e.usageTokens
          totalRequests := fw.stats.totalRequests + 1 } }
        let fw2 := updateRequestHistory fw1 e.usageTokens e.responseTime
          e.timestamp "gemini-1.5-flash"
        (fw2, e.assessment,
         [.generate "gemini-1.5-flash" userRequest, .countTokens])

/-- Embedding of `initializeTiers`.  The environment carries the three
`countTokens` results; a rejection of any of them (the `error` case) reaches
the `catch` before any cache write or statistics write happened, because all
three counts are awaited before the first `cache.set`. -/
def initializeTiers (fw : Framework) (tier1 tier2 tier3 : String)
    (env : Except Unit (ℕ × ℕ × ℕ)) : Framework × Bool × List ExtCall :=
  if fw.genai = false then (fw, false, [])
  else
    match env with
    | .error _ => (fw, false, [.countTokens])
    | .ok (t1, t2, t3) =>
        let cache := cacheSet (cacheSet (cacheSet fw.cache
          "tier1-pre" { content := tier1, tokens := t1 })
          "tier2-pre" { content := tier2, tokens := t2 })
          "tier3-pre" { content := tier3, tokens := t3 }
        ({ fw with
           cache := cache
           stats := { fw.stats with
             tier1Tokens := t1, tier2Tokens := t2, tier3Tokens := t3
             cachedTokens := t1 + t2 + t3 } },
         true, [.countTokens, .countTokens, .countTokens])

/-- Result shape of `storeConversation` (`{ success, data?/error? }`). -/
structure StoreResult where
  success : Bool
deriving DecidableEq, Repr

/-- Embedding of `storeConversation`: without a persistence client it returns
a failed result; with one it attempts the insert and converts any rejection
into a failed result inside its own `catch` — it never throws. -/
def storeConversation (fw : Framework) (env : Except Unit Unit) :
    StoreResult × List ExtCall :=
  if fw.supabase = false then ({ success := false }, [])
  else
    match env with
    | .ok _ => ({ success := true }, [.insert])
    | .error _ => ({ success := false }, [.insert])

/-- Outcomes of the external interactions of the main generation step of
`processRequest`: the response text, the two `countTokens` results and the
measured wall-clock data. -/
structure GenEnv where
  responseText : String
  inputTokens : ℕ
  outputTokens : ℕ
  responseTime : ℕ
  timestamp : ℕ
deriving DecidableEq, Repr

deriving instance DecidableEq for Except

/-- Environment of one `processRequest` call: outcomes for the profundity
assessment block, the generation block, and the optional persistence insert. -/
structure ReqEnv where
  prof : Except Unit ProfEnv
  gen : Except Unit GenEnv
  persist : Except Unit Unit
deriving DecidableEq, Repr

/-- The exceptions `processRequest` can propagate. -/
inductive ReqError
  | apiNotInitialized
  | tiersNotInitialized
  | upstream
deriving DecidableEq, Repr

/-- The `ProcessingResult` returned by a successful `processRequest`, restricted
to the fields the source actually populates on this path. -/
structure ProcessingResult where
  main_response : String
  model_used : String
  profundity_score : ℚ
  is_profound : Bool
  stats : TokenStats
  response_time : ℕ
  actual_tokens_used : ℕ
  supabase_result : Option StoreResult
deriving DecidableEq, Repr

/-- The fixed input pricing constant of the cost estimate. -/
def inputRate : ℚ := 0.00015

/-- The fixed output pricing constant of the cost estimate. -/
def outputRate : ℚ := 0.0006

/-- Embedding of `processRequest`.  Mirrors the source order: the two guard
throws, the profundity assessment, the routing decision on `score > 50`, the
generation call (whose rejection propagates, keeping all state mutations made
so far), the statistics and cost update, the history update, and the optional
persistence step.  Returns (new state, external calls, outcome). -/
def processRequest (fw : Framework) (userRequest : String) (env : ReqEnv) :
    Framework × List ExtCall × Except ReqError ProcessingResult :=
  if fw.genai = false then
    (fw, [], .error .apiNotInitialized)
  else if !cacheHas fw.cache "tier1-pre" || !cacheHas fw.cache "tier2-pre"
      || !cacheHas fw.cache "tier3-pre" then
    (fw, [], .error .tiersNotInitialized)
  else
    let ap := assessProfundity fw userRequest env.prof
    let fw1 := ap.1
    let assessment := ap.2.1
    let isProfound : Bool := decide (50 < assessment.profundity_score)
    let tier1 := (cacheGet fw1.cache "tier1-pre").getD { content := "", tokens := 0 }
    let tier2 := (cacheGet fw1.cache "tier2-pre").getD { content := "", tokens := 0 }
    let tier3 := (cacheGet fw1.cache "tier3-pre").getD { content := "", tokens := 0 }
    let wrappedRequest :=
      "\n<!-- PROFUNDITY ANALYSIS: Score " ++ toString assessment.profundity_score
      ++ "/100 - " ++ assessment.reasoning ++ " -->\n" ++ userRequest ++ "\n"
    let fullPayload := tier1.content ++ "\n\n" ++ tier2.content ++ "\n\n"
      ++ tier3.content ++ "\n\n" ++ wrappedRequest
    let targetModel := if isProfound then "gemini-1.5-pro" else "gemini-1.5-flash"
    match env.gen with
    | .error _ =>
        (fw1, ap.2.2 ++ [.generate targetModel fullPayload], .error .upstream)
    | .ok g =>
        let totalTokens := g.inputTokens + g.outputTokens
        let inputCost := (g.inputTokens : ℚ) / 1000 * inputRate
        let outputCost := (g.outputTokens : ℚ) / 1000 * outputRate
        let fw2 : Framework := { fw1 with stats := { fw1.stats with
          finalResponseTokens := fw1.stats.finalResponseTokens + g.outputTokens
          inputTokens := fw1.stats.inputTokens + g.inputTokens
          outputTokens := fw1.stats.outputTokens + g.outputTokens
          totalTokensUsed := fw1.stats.totalTokensUsed + totalTokens
          totalRequests := fw1.stats.totalRequests + 1
          costEstimate := fw1.stats.costEstimate + (inputCost + outputCost) } }
        let fw3 := updateRequestHistory fw2 totalTokens g.responseTime
          g.timestamp targetModel
        let store :=
          if fw3.supabase then
            let sc := storeConversation fw3 env.persist
            (some sc.1, sc.2)
          else ((none : Option StoreResult), ([] : List ExtCall))
        (fw3,
         ap.2.2 ++ [.generate targetModel fullPayload, .countTokens, .countTokens]
           ++ store.2,
         .ok { main_response := g.responseText
               model_used := targetModel
               profundity_score := assessment.profundity_score
               is_profound := isProfound
               stats := fw3.stats
               response_time := g.responseTime
               actual_tokens_used := totalTokens
               supabase_result := store.1 })

/-- Embedding of `getStats` (the snapshot copy). -/
def getStats (fw : Framework) : TokenStats := fw.stats

/-- The object returned by `getCacheStatus`, restricted to the fields with
non-trivial content. -/
structure CacheStatus where
  cached_tiers : List String
  total_cached_tokens : ℕ
  efficiency_percentage : ℤ
deriving DecidableEq, Repr

/-- Embedding of `getCacheStatus`, including its guarded efficiency ratio. -/
def getCacheStatus (fw : Framework) : CacheStatus :=
  { cached_tiers := fw.cache.map (fun p => p.1)
    total_cached_tokens := fw.stats.cachedTokens
    efficiency_percentage :=
      if 0 < fw.stats.totalTokensUsed then
        jsRound ((fw.stats.cachedTokens : ℚ) / (fw.stats.totalTokensUsed : ℚ) * 100)
      else 0 }

/-- Embedding of `clearCache`: empty the map and zero the four cached-context
statistics fields, leaving everything else in place. -/
def clearCache (fw : Framework) : Framework :=
  { fw with
    cache := []
    stats := { fw.stats with
      cachedTokens := 0, tier1Tokens := 0, tier2Tokens := 0, tier3Tokens := 0 } }

/-- True when the outcome of `processRequest` is a resolved promise. -/
def exceptIsOk : Except ReqError ProcessingResult → Bool
  | .ok _ => true
  | .error _ => false

/-- Model identifier of a successful outcome. -/
def okModel : Except ReqError ProcessingResult → Option String
  | .ok r => some r.model_used
  | .error _ => none

/-- Profundity score of a successful outcome. -/
def okScore : Except ReqError ProcessingResult → Option ℚ
  | .ok r => some r.profundity_score
  | .error _ => none

/-- Main response text of a successful outcome. -/
def okResponse : Except ReqError ProcessingResult → Option String
  | .ok r => some r.main_response
  | .error _ => none

/-- Persistence result of a successful outcome. -/
def okStore : Except ReqError ProcessingResult → Option (Option StoreResult)
  | .ok r => some r.supabase_result
  | .error _ => none

/-- All three tier entries are cached: the negation of the second guard of
`processRequest`, and the post-state of a successful `initializeTiers`. -/
def tiersCached (fw : Framework) : Bool :=
  cacheHas fw.cache "tier1-pre" && cacheHas fw.cache "tier2-pre"
    && cacheHas fw.cache "tier3-pre"

/-- Token count a call environment contributes to `totalTokensUsed` on a
successful call: the profundity-prompt count when the assessment block
resolved, plus input and output counts of the generation step. -/
def callTokens (env : ReqEnv) : ℕ :=
  (match env.prof with | .ok e => e.usageTokens | .error _ => 0)
  + (match env.gen with | .ok g => g.inputTokens + g.outputTokens | .error _ => 0)

/-- Iterate `processRequest` over a list of (message, environment) pairs,
threading the state. -/
def runRequests (fw : Framework) : List (String × ReqEnv) → Framework
  | [] => fw
  | (msg, env) :: rest => runRequests (processRequest fw msg env).1 rest

/-- Every call in the sequence resolves successfully. -/
def allSucceed (fw : Framework) : List (String × ReqEnv) → Bool
  | [] => true
  | (msg, env) :: rest =>
      exceptIsOk (processRequest fw msg env).2.2
        && allSucceed (processRequest fw msg env).1 rest

/-- The last `n` elements of a list (the `slice(-n)` view). -/
def lastN (n : ℕ) (l : List RequestEntry) : List RequestEntry :=
  l.drop (l.length - n)

/-- A framework instance with both SDK clients configured and no activity. -/
def fwFresh : Framework := initialFramework true true

/-- `fwFresh` after a successful `initializeTiers` whose three `countTokens`
calls returned 10, 20 and 30. -/
def fwInit : Framework :=
  (initializeTiers fwFresh "alpha" "beta" "gamma" (Except.ok (10, 20, 30))).1

/-- A resolved profundity-assessment environment: score 40, prompt counted at
5 tokens. -/
def profEnvA : ProfEnv :=
  { assessment := { profundity_score := 40, reasoning := "moderate" }
    usageTokens := 5, responseTime := 7, timestamp := 0 }

/-- A resolved generation environment: 7 input tokens, 11 output tokens. -/
def genEnvA : GenEnv :=
  { responseText := "hello there", inputTokens := 7, outputTokens := 11
    responseTime := 9, timestamp := 1 }

/-- A fully successful call environment. -/
def envA : ReqEnv := { prof := .ok profEnvA, gen := .ok genEnvA, persist := .ok () }

theorem bool_guard_eq (a b c : Bool) : (!a || !b || !c) = !(a && b && c) := by
  cases a <;> cases b <;> cases c <;> rfl

theorem urh_costEstimate (fw : Framework) (t rt ts : ℕ) (m : String) :
    (updateRequestHistory fw t rt ts m).stats.costEstimate = fw.stats.costEstimate := rfl

theorem urh_totalTokensUsed (fw : Framework) (t rt ts : ℕ) (m : String) :
    (updateRequestHistory fw t rt ts m).stats.totalTokensUsed
      = fw.stats.totalTokensUsed := rfl

theorem urh_totalRequests (fw : Framework) (t rt ts : ℕ) (m : String) :
    (updateRequestHistory fw t rt ts m).stats.totalRequests
      = fw.stats.totalRequests := rfl

theorem urh_inputTokens (fw : Framework) (t rt ts : ℕ) (m : String) :
    (updateRequestHistory fw t rt ts m).stats.inputTokens = fw.stats.inputTokens := rfl

theorem urh_outputTokens (fw : Framework) (t rt ts : ℕ) (m : String) :
    (updateRequestHistory fw t rt ts m).stats.outputTokens = fw.stats.outputTokens := rfl

theorem urh_finalResponseTokens (fw : Framework) (t rt ts : ℕ) (m : String) :
    (updateRequestHistory fw t rt ts m).stats.finalResponseTokens
      = fw.stats.finalResponseTokens := rfl

theorem urh_profundityCheckTokens (fw : Framework) (t rt ts : ℕ) (m : String) :
    (updateRequestHistory fw t rt ts m).stats.profundityCheckTokens
      = fw.stats.profundityCheckTokens := rfl

theorem urh_cachedTokens (fw : Framework) (t rt ts : ℕ) (m : String) :
    (updateRequestHistory fw t rt ts m).stats.cachedTokens = fw.stats.cachedTokens := rfl

theorem urh_tier1 (fw : Framework) (t rt ts : ℕ) (m : String) :
    (updateRequestHistory fw t rt ts m).stats.tier1Tokens = fw.stats.tier1Tokens := rfl

theorem urh_tier2 (fw : Framework) (t rt ts : ℕ) (m : String) :
    (updateRequestHistory fw t rt ts m).stats.tier2Tokens = fw.stats.tier2Tokens := rfl

theorem urh_tier3 (fw : Framework) (t rt ts : ℕ) (m : String) :
    (updateRequestHistory fw t rt ts m).stats.tier3Tokens = fw.stats.tier3Tokens := rfl

theorem urh_memoryAnnotationTokens (fw : Framework) (t rt ts : ℕ) (m : String) :
    (updateRequestHistory fw t rt ts m).stats.memoryAnnotationTokens
      = fw.stats.memoryAnnotationTokens := rfl

theorem urh_multimediaTokens (fw : Framework) (t rt ts : ℕ) (m : String) :
    (updateRequestHistory fw t rt ts m).stats.multimediaTokens
      = fw.stats.multimediaTokens := rfl

theorem urh_cache (fw : Framework) (t rt ts : ℕ) (m : String) :
    (updateRequestHistory fw t rt ts m).cache = fw.cache := rfl

theorem urh_genai (fw : Framework) (t rt ts : ℕ) (m : String) :
    (updateRequestHistory fw t rt ts m).genai = fw.genai := rfl

theorem urh_supabase (fw : Framework) (t rt ts : ℕ) (m : String) :
    (updateRequestHistory fw t rt ts m).supabase = fw.supabase := rfl

theorem apf_costEstimate (fw : Framework) (msg : String) (env : Except Unit ProfEnv) :
    (assessProfundity fw msg env).1.stats.costEstimate = fw.stats.costEstimate := by
  by_cases h : fw.genai = false <;> cases env <;>
    simp [assessProfundity, h, updateRequestHistory]

theorem apf_inputTokens (fw : Framework) (msg : String) (env : Except Unit ProfEnv) :
    (assessProfundity fw msg env).1.stats.inputTokens = fw.stats.inputTokens := by
  by_cases h : fw.genai = false <;> cases env <;>
    simp [assessProfundity, h, updateRequestHistory]

theorem apf_outputTokens (fw : Framework) (msg : String) (env : Except Unit ProfEnv) :
    (assessProfundity fw msg env).1.stats.outputTokens = fw.stats.outputTokens := by
  by_cases h : fw.genai = false <;> cases env <;>
    simp [assessProfundity, h, updateRequestHistory]

theorem apf_finalResponseTokens (fw : Framework) (msg : String) (env : Except Unit ProfEnv) :
    (assessProfundity fw msg env).1.stats.finalResponseTokens
      = fw.stats.finalResponseTokens := by
  by_cases h : fw.genai = false <;> cases env <;>
    simp [assessProfundity, h, updateRequestHistory]

theorem apf_cachedTokens (fw : Framework) (msg : String) (env : Except Unit ProfEnv) :
    (assessProfundity fw msg env).1.stats.cachedTokens = fw.stats.cachedTokens := by
  by_cases h : fw.genai = false <;> cases env <;>
    simp [assessProfundity, h, updateRequestHistory]

theorem apf_tier1 (fw : Framework) (msg : String) (env : Except Unit ProfEnv) :
    (assessProfundity fw msg env).1.stats.tier1Tokens = fw.stats.tier1Tokens := by
  by_cases h : fw.genai = false <;> cases env <;>
    simp [assessProfundity, h, updateRequestHistory]

theorem apf_tier2 (fw : Framework) (msg : String) (env : Except Unit ProfEnv) :
    (assessProfundity fw msg env).1.stats.tier2Tokens = fw.stats.tier2Tokens := by
  by_cases h : fw.genai = false <;> cases env <;>
    simp [assessProfundity, h, updateRequestHistory]

theorem apf_tier3 (fw : Framework) (msg : String) (env : Except Unit ProfEnv) :
    (assessProfundity fw msg env).1.stats.tier3Tokens = fw.stats.tier3Tokens := by
  by_cases h : fw.genai = false <;> cases env <;>
    simp [assessProfundity, h, updateRequestHistory]

theorem apf_memoryAnnotationTokens (fw : Framework) (msg : String)
    (env : Except Unit ProfEnv) :
    (assessProfundity fw msg env).1.stats.memoryAnnotationTokens
      = fw.stats.memoryAnnotationTokens := by
  by_cases h : fw.genai = false <;> cases env <;>
    simp [assessProfundity, h, updateRequestHistory]

theorem apf_multimediaTokens (fw : Framework) (msg : String) (env : Except Unit ProfEnv) :
    (assessProfundity fw msg env).1.stats.multimediaTokens
      = fw.stats.multimediaTokens := by
  by_cases h : fw.genai = false <;> cases env <;>
    simp [assessProfundity, h, updateRequestHistory]

theorem apf_cache (fw : Framework) (msg : String) (env : Except Unit ProfEnv) :
    (assessProfundity fw msg env).1.cache = fw.cache := by
  by_cases h : fw.genai = false <;> cases env <;>
    simp [assessProfundity, h, updateRequestHistory]

theorem apf_genai (fw : Framework) (msg : String) (env : Except Unit ProfEnv) :
    (assessProfundity fw msg env).1.genai = fw.genai := by
  by_cases h : fw.genai = false <;> cases env <;>
    simp [assessProfundity, h, updateRequestHistory]

theorem apf_supabase (fw : Framework) (msg : String) (env : Except Unit ProfEnv) :
    (assessProfundity fw msg env).1.supabase = fw.supabase := by
  by_cases h : fw.genai = false <;> cases env <;>
    simp [assessProfundity, h, updateRequestHistory]

theorem apf_totalTokens_ok (fw : Framework) (msg : String) (e : ProfEnv)
    (h : fw.genai = true) :
    (assessProfundity fw msg (Except.ok e)).1.stats.totalTokensUsed
      = fw.stats.totalTokensUsed + e.usageTokens := by
  simp [assessProfundity, h, updateRequestHistory]

theorem apf_totalTokens_mono (fw : Framework) (msg : String) (env : Except Unit ProfEnv) :
    fw.stats.totalTokensUsed ≤ (assessProfundity fw msg env).1.stats.totalTokensUsed := by
  by_cases h : fw.genai = false <;> cases env <;>
    simp [assessProfundity, h, updateRequestHistory]

theorem apf_no_genai (fw : Framework) (msg : String) (env : Except Unit ProfEnv)
    (h : fw.genai = false) :
    assessProfundity fw msg env = (fw, fallbackAssessment msg, []) := by
  simp [assessProfundity, h]

theorem apf_err_state (fw : Framework) (msg : String) (u : Unit)
    (h : fw.genai = true) :
    (assessProfundity fw msg (Except.error u)).1 = fw := by
  simp [assessProfundity, h]

theorem pr_no_genai (fw : Framework) (msg : String) (env : ReqEnv)
    (h : fw.genai = false) :
    processRequest fw msg env = (fw, [], .error .apiNotInitialized) := by
  simp [processRequest, h]

theorem pr_no_tiers (fw : Framework) (msg : String) (env : ReqEnv)
    (hg : fw.genai = true) (ht : tiersCached fw = false) :
    processRequest fw msg env = (fw, [], .error .tiersNotInitialized) := by
  simp only [tiersCached] at ht
  have hguard : (!cacheHas fw.cache "tier1-pre" || !cacheHas fw.cache "tier2-pre"
      || !cacheHas fw.cache "tier3-pre") = true := by
    rw [bool_guard_eq, ht]; rfl
  simp [processRequest, hg, hguard]

theorem pr_ok_implies_ready (fw : Framework) (msg : String) (env : ReqEnv)
    (hok : exceptIsOk (processRequest fw msg env).2.2 = true) :
    fw.genai = true ∧ tiersCached fw = true := by
  constructor
  · by_contra h
    have hfalse : fw.genai = false := by
      cases hgen : fw.genai
      · rfl
      · exact absurd hgen h
    rw [pr_no_genai fw msg env hfalse] at hok
    simp [exceptIsOk] at hok
  · by_contra h
    have hg : fw.genai = true := by
      by_contra hgg
      have hfalse : fw.genai = false := by
        cases hgen : fw.genai
        · rfl
        · exact absurd hgen hgg
      rw [pr_no_genai fw msg env hfalse] at hok
      simp [exceptIsOk] at hok
    have htf : tiersCached fw = false := by
      cases htc : tiersCached fw
      · rfl
      · exact absurd htc h
    rw [pr_no_tiers fw msg env hg htf] at hok
    simp [exceptIsOk] at hok

theorem pr_gen_err (fw : Framework) (msg : String) (env : ReqEnv)
    (hg : fw.genai = true) (ht : tiersCached fw = true) (u : Unit)
    (hgen : env.gen = Except.error u) :
    (processRequest fw msg env).1 = (assessProfundity fw msg env.prof).1 ∧
    (processRequest fw msg env).2.2 = Except.error ReqError.upstream := by
  simp only [tiersCached, Bool.and_eq_true] at ht
  obtain ⟨⟨h1, h2⟩, h3⟩ := ht
  simp [processRequest, hg, h1, h2, h3, hgen]

theorem bool_eq_true_of_ne_false (b : Bool) (h : ¬ b = false) : b = true := by
  cases b
  · exact absurd rfl h
  · rfl

theorem pr_gen_ok_totalTokens (fw : Framework) (msg : String) (env : ReqEnv)
    (g : GenEnv) (hg : fw.genai = true) (ht : tiersCached fw = true)
    (hgen : env.gen = Except.ok g) :
    (processRequest fw msg env).1.stats.totalTokensUsed
      = (assessProfundity fw msg env.prof).1.stats.totalTokensUsed
        + (g.inputTokens + g.outputTokens) := by
  simp only [tiersCached, Bool.and_eq_true] at ht
  obtain ⟨⟨h1, h2⟩, h3⟩ := ht
  simp [processRequest, hg, h1, h2, h3, hgen, urh_totalTokensUsed]

theorem pr_gen_ok_cost (fw : Framework) (msg : String) (env : ReqEnv)
    (g : GenEnv) (hg : fw.genai = true) (ht : tiersCached fw = true)
    (hgen : env.gen = Except.ok g) :
    (processRequest fw msg env).1.stats.costEstimate
      = fw.stats.costEstimate
        + ((g.inputTokens : ℚ) / 1000 * inputRate
           + (g.outputTokens : ℚ) / 1000 * outputRate) := by
  simp only [tiersCached, Bool.and_eq_true] at ht
  obtain ⟨⟨h1, h2⟩, h3⟩ := ht
  simp [processRequest, hg, h1, h2, h3, hgen, urh_costEstimate, apf_costEstimate]

theorem pr_gen_ok_score_model (fw : Framework) (msg : String) (env : ReqEnv)
    (g : GenEnv) (hg : fw.genai = true) (ht : tiersCached fw = true)
    (hgen : env.gen = Except.ok g) :
    okScore (processRequest fw msg env).2.2
      = some (assessProfundity fw msg env.prof).2.1.profundity_score ∧
    okModel (processRequest fw msg env).2.2
      = some (if 50 < (assessProfundity fw msg env.prof).2.1.profundity_score
              then "gemini-1.5-pro" else "gemini-1.5-flash") := by
  simp only [tiersCached, Bool.and_eq_true] at ht
  obtain ⟨⟨h1, h2⟩, h3⟩ := ht
  simp [processRequest, hg, h1, h2, h3, hgen, okScore, okModel]

theorem pr_persist_fail (fw : Framework) (msg : String) (env : ReqEnv) (g : GenEnv)
    (hg : fw.genai = true) (ht : tiersCached fw = true) (hs : fw.supabase = true)
    (hgen : env.gen = Except.ok g) (hp : env.persist = Except.error ()) :
    exceptIsOk (processRequest fw msg env).2.2 = true ∧
    okResponse (processRequest fw msg env).2.2 = some g.responseText ∧
    okStore (processRequest fw msg env).2.2 = some (some { success := false }) := by
  simp only [tiersCached, Bool.and_eq_true] at ht
  obtain ⟨⟨h1, h2⟩, h3⟩ := ht
  simp [processRequest, hg, h1, h2, h3, hgen, hp, exceptIsOk, okResponse, okStore,
        storeConversation, updateRequestHistory, apf_supabase, hs]

theorem pr_total_delta (fw : Framework) (msg : String) (env : ReqEnv)
    (hok : exceptIsOk (processRequest fw msg env).2.2 = true) :
    (processRequest fw msg env).1.stats.totalTokensUsed
      = fw.stats.totalTokensUsed + callTokens env := by
  obtain ⟨hg, ht⟩ := pr_ok_implies_ready fw msg env hok
  cases hgen : env.gen with
  | error u =>
      rw [(pr_gen_err fw msg env hg ht u hgen).2] at hok
      simp [exceptIsOk] at hok
  | ok g =>
      rw [pr_gen_ok_totalTokens fw msg env g hg ht hgen]
      cases hprof : env.prof with
      | error u =>
          rw [apf_err_state fw msg u hg]
          simp [callTokens, hgen, hprof]
      | ok e =>
          rw [apf_totalTokens_ok fw msg e hg]
          simp [callTokens, hgen, hprof]
          omega

theorem pr_total_mono (fw : Framework) (msg : String) (env : ReqEnv) :
    fw.stats.totalTokensUsed ≤ (processRequest fw msg env).1.stats.totalTokensUsed := by
  by_cases hgf : fw.genai = false
  · rw [pr_no_genai fw msg env hgf]
  · have hg : fw.genai = true := bool_eq_true_of_ne_false _ hgf
    by_cases htf : tiersCached fw = true
    · cases hgen : env.gen with
      | error u =>
          rw [(pr_gen_err fw msg env hg htf u hgen).1]
          exact apf_totalTokens_mono fw msg env.prof
      | ok g =>
          rw [pr_gen_ok_totalTokens fw msg env g hg htf hgen]
          exact le_trans (apf_totalTokens_mono fw msg env.prof) (Nat.le_add_right _ _)
    · have htc : tiersCached fw = false := by
        cases h : tiersCached fw
        · rfl
        · exact absurd h htf
      rw [pr_no_tiers fw msg env hg htc]

/-- C9: `clearCache` resets exactly the cached-context state — it empties the
context cache and zeroes `cachedTokens`, `tier1Tokens`, `tier2Tokens` and
`tier3Tokens` — while leaving `totalRequests`, `costEstimate` and every other
statistics field (and the rest of the instance state) unchanged. -/
theorem clearCache_exact_frame (fw : Framework) :
    (clearCache fw).cache = [] ∧
    (clearCache fw).stats.cachedTokens = 0 ∧
    (clearCache fw).stats.tier1Tokens = 0 ∧
    (clearCache fw).stats.tier2Tokens = 0 ∧
    (clearCache fw).stats.tier3Tokens = 0 ∧
    (clearCache fw).stats.totalRequests = fw.stats.totalRequests ∧
    (clearCache fw).stats.costEstimate = fw.stats.costEstimate ∧
    (clearCache fw).stats.totalTokensUsed = fw.stats.totalTokensUsed ∧
    (clearCache fw).stats.profundityCheckTokens = fw.stats.profundityCheckTokens ∧
    (clearCache fw).stats.finalResponseTokens = fw.stats.finalResponseTokens ∧
    (clearCache fw).stats.memoryAnnotationTokens = fw.stats.memoryAnnotationTokens ∧
    (clearCache fw).stats.multimediaTokens = fw.stats.multimediaTokens ∧
    (clearCache fw).stats.inputTokens = fw.stats.inputTokens ∧
    (clearCache fw).stats.outputTokens = fw.stats.outputTokens ∧
    (clearCache fw).stats.averageResponseTime = fw.stats.averageResponseTime ∧
    (clearCache fw).requestHistory = fw.requestHistory ∧
    (clearCache fw).genai = fw.genai ∧
    (clearCache fw).supabase = fw.supabase :=
  ⟨rfl, rfl, rfl, rfl, rfl, rfl, rfl, rfl, rfl, rfl, rfl, rfl, rfl, rfl, rfl,
   rfl, rfl, rfl⟩

/-- C10: `getCacheStatus` never divides by zero — when `totalTokensUsed` is
zero the reported efficiency percentage is exactly 0, and otherwise it is the
rounded value of `cachedTokens / totalTokensUsed * 100`; the computation is a
total function of the state. -/
theorem getCacheStatus_efficiency_total (fw : Framework) :
    (fw.stats.totalTokensUsed = 0 → (getCacheStatus fw).efficiency_percentage = 0) ∧
    (0 < fw.stats.totalTokensUsed →
      (getCacheStatus fw).efficiency_percentage
        = jsRound ((fw.stats.cachedTokens : ℚ) / (fw.stats.totalTokensUsed : ℚ) * 100)) := by
  constructor
  · intro h
    simp [getCacheStatus, h]
  · intro h
    simp [getCacheStatus, h]

/-- State with some recorded usage, witnessing the guarded branch of C10. -/
def fwEff : Framework :=
  { fwFresh with stats := { initialStats with totalTokensUsed := 4, cachedTokens := 1 } }

theorem getCacheStatus_efficiency_total_witness :
    0 < fwEff.stats.totalTokensUsed ∧
    (getCacheStatus fwEff).efficiency_percentage
      = jsRound ((fwEff.stats.cachedTokens : ℚ) / (fwEff.stats.totalTokensUsed : ℚ) * 100) :=
  ⟨by decide, (getCacheStatus_efficiency_total fwEff).2 (by decide)⟩

/-- C2: every successful `processRequest` call whose computed profundity score
is at most 50 (including exactly 50) reports the fast model identifier, and
every call whose score is strictly greater than 50 reports the
high-capability model identifier. -/
theorem processRequest_routing_threshold (fw : Framework) (msg : String)
    (env : ReqEnv) (s : ℚ) (m : String)
    (hs : okScore (processRequest fw msg env).2.2 = some s)
    (hm : okModel (processRequest fw msg env).2.2 = some m) :
    (s ≤ 50 → m = "gemini-1.5-flash") ∧ (50 < s → m = "gemini-1.5-pro") := by
  have hok : exceptIsOk (processRequest fw msg env).2.2 = true := by
    cases h : (processRequest fw msg env).2.2 with
    | ok r => simp [exceptIsOk]
    | error e => rw [h] at hs; simp [okScore] at hs
  obtain ⟨hg, ht⟩ := pr_ok_implies_ready fw msg env hok
  cases hgen : env.gen with
  | error u =>
      rw [(pr_gen_err fw msg env hg ht u hgen).2] at hs
      simp [okScore] at hs
  | ok g =>
      obtain ⟨hs2, hm2⟩ := pr_gen_ok_score_model fw msg env g hg ht hgen
      rw [hs2, Option.some.injEq] at hs
      rw [hm2, Option.some.injEq] at hm
      subst hs
      constructor
      · intro hle
        rw [← hm, if_neg (not_lt.mpr hle)]
      · intro hlt
        rw [← hm, if_pos hlt]

theorem processRequest_routing_threshold_witness :
    okScore (processRequest fwInit "hi" envA).2.2 = some 40 ∧
    okModel (processRequest fwInit "hi" envA).2.2 = some "gemini-1.5-flash" ∧
    (((40 : ℚ) ≤ 50 → "gemini-1.5-flash" = "gemini-1.5-flash") ∧
     ((50 : ℚ) < 40 → "gemini-1.5-flash" = "gemini-1.5-pro")) :=
  ⟨by decide, by decide,
   processRequest_routing_threshold fwInit "hi" envA 40 "gemini-1.5-flash"
     (by decide) (by decide)⟩

/-- C6: calling `processRequest` before `initializeTiers` has succeeded (no
generation client, or the tier entries absent from the cache) always fails
with the corresponding not-initialized error, leaves the state untouched and
attempts no external call; and `initializeTiers` itself returns `false`
without doing anything when no generation client is configured. -/
theorem processRequest_uninitialized_guard :
    (∀ (fw : Framework) (msg : String) (env : ReqEnv),
      (fw.genai = false ∨ tiersCached fw = false) →
      (processRequest fw msg env).1 = fw ∧
      (processRequest fw msg env).2.1 = [] ∧
      ((processRequest fw msg env).2.2 = Except.error ReqError.apiNotInitialized ∨
       (processRequest fw msg env).2.2 = Except.error ReqError.tiersNotInitialized)) ∧
    (∀ (fw : Framework) (t1 t2 t3 : String) (env : Except Unit (ℕ × ℕ × ℕ)),
      fw.genai = false → initializeTiers fw t1 t2 t3 env = (fw, false, [])) := by
  constructor
  · intro fw msg env h
    by_cases hgf : fw.genai = false
    · rw [pr_no_genai fw msg env hgf]
      exact ⟨rfl, rfl, Or.inl rfl⟩
    · have hg : fw.genai = true := bool_eq_true_of_ne_false _ hgf
      have ht : tiersCached fw = false := h.resolve_left hgf
      rw [pr_no_tiers fw msg env hg ht]
      exact ⟨rfl, rfl, Or.inr rfl⟩
  · intro fw t1 t2 t3 env h
    simp [initializeTiers, h]

/-- A framework instance constructed without any SDK client. -/
def fwNoApi : Framework := initialFramework false false

theorem processRequest_uninitialized_guard_witness :
    (fwFresh.genai = false ∨ tiersCached fwFresh = false) ∧
    ((processRequest fwFresh "hi" envA).1 = fwFresh ∧
     (processRequest fwFresh "hi" envA).2.1 = [] ∧
     ((processRequest fwFresh "hi" envA).2.2 = Except.error ReqError.apiNotInitialized ∨
      (processRequest fwFresh "hi" envA).2.2 = Except.error ReqError.tiersNotInitialized)) ∧
    fwNoApi.genai = false ∧
    initializeTiers fwNoApi "a" "b" "c" (Except.ok (1, 2, 3)) = (fwNoApi, false, []) :=
  ⟨by decide,
   processRequest_uninitialized_guard.1 fwFresh "hi" envA (by decide),
   by decide,
   processRequest_uninitialized_guard.2 fwNoApi "a" "b" "c" (Except.ok (1, 2, 3)) (by decide)⟩

/-- C7: when the persistence collaborator is configured but its insert fails,
a `processRequest` call whose generation step succeeds still resolves
successfully, returns the generation response text unchanged, and records the
persistence failure as a non-fatal failed store result instead of raising. -/
theorem processRequest_persistence_isolation (fw : Framework) (msg : String)
    (prof : Except Unit ProfEnv) (g : GenEnv)
    (hg : fw.genai = true) (ht : tiersCached fw = true) (hs : fw.supabase = true) :
    exceptIsOk (processRequest fw msg ⟨prof, Except.ok g, Except.error ()⟩).2.2 = true ∧
    okResponse (processRequest fw msg ⟨prof, Except.ok g, Except.error ()⟩).2.2
      = some g.responseText ∧
    okStore (processRequest fw msg ⟨prof, Except.ok g, Except.error ()⟩).2.2
      = some (some { success := false }) :=
  pr_persist_fail fw msg ⟨prof, Except.ok g, Except.error ()⟩ g hg ht hs rfl rfl

theorem processRequest_persistence_isolation_witness :
    (fwInit.genai = true ∧ tiersCached fwInit = true ∧ fwInit.supabase = true) ∧
    (exceptIsOk (processRequest fwInit "hi"
        ⟨Except.ok profEnvA, Except.ok genEnvA, Except.error ()⟩).2.2 = true ∧
     okResponse (processRequest fwInit "hi"
        ⟨Except.ok profEnvA, Except.ok genEnvA, Except.error ()⟩).2.2
       = some genEnvA.responseText ∧
     okStore (processRequest fwInit "hi"
        ⟨Except.ok profEnvA, Except.ok genEnvA, Except.error ()⟩).2.2
       = some (some { success := false })) :=
  ⟨⟨by decide, by decide, by decide⟩,
   processRequest_persistence_isolation fwInit "hi" (Except.ok profEnvA) genEnvA
     (by decide) (by decide) (by decide)⟩

theorem foldl_add_ite_15 (p : String → Bool) (l : List String) (init : ℚ) :
    l.foldl (fun acc i => acc + (if p i then (15 : ℚ) else 0)) init
      = init + 15 * ((l.filter p).length : ℚ) := by
  induction l generalizing init with
  | nil => simp
  | cons hd tl ih =>
      by_cases h : p hd = true
      · simp only [List.foldl_cons, List.filter_cons, h, if_true]
        rw [ih]
        push_cast [List.length_cons]
        ring
      · simp only [List.foldl_cons, List.filter_cons, h, if_false]
        rw [ih]
        simp [h]

theorem fallbackRawScore_eq (msg : String) :
    fallbackRawScore msg
      = min ((msg.length : ℚ) / 10) 30
        + 15 * ((complexityIndicators.filter
            (fun i => strIncludes (strToLower msg) i)).length : ℚ) := by
  rw [fallbackRawScore]
  exact foldl_add_ite_15 (fun i => strIncludes (strToLower msg) i) complexityIndicators _

/-- C3: with no generation client configured, `assessProfundity` is a pure
deterministic function of the message — the outcome does not depend on the
environment, the state is left untouched — and its score is the sum of a
fixed weight of 15 per matched vocabulary keyword plus the length-derived term
`min(length / 10, 30)`, capped at 100. -/
theorem assessProfundity_fallback_pure (fw : Framework) (msg : String)
    (env env2 : Except Unit ProfEnv) (h : fw.genai = false) :
    assessProfundity fw msg env = assessProfundity fw msg env2 ∧
    (assessProfundity fw msg env).1 = fw ∧
    (assessProfundity fw msg env).2.1.profundity_score
      = min (15 * ((complexityIndicators.filter
            (fun i => strIncludes (strToLower msg) i)).length : ℚ)
          + min ((msg.length : ℚ) / 10) 30) 100 := by
  rw [apf_no_genai fw msg env h, apf_no_genai fw msg env2 h]
  refine ⟨rfl, rfl, ?_⟩
  show (fallbackAssessment msg).profundity_score = _
  rw [show (fallbackAssessment msg).profundity_score
        = min (fallbackRawScore msg) 100 from rfl]
  rw [fallbackRawScore_eq]
  congr 1
  ring

theorem assessProfundity_fallback_pure_witness :
    fwNoApi.genai = false ∧
    (assessProfundity fwNoApi "quantum ethics" (Except.ok profEnvA)
       = assessProfundity fwNoApi "quantum ethics" (Except.error ()) ∧
     (assessProfundity fwNoApi "quantum ethics" (Except.ok profEnvA)).1 = fwNoApi ∧
     (assessProfundity fwNoApi "quantum ethics" (Except.ok profEnvA)).2.1.profundity_score
       = min (15 * ((complexityIndicators.filter
             (fun i => strIncludes (strToLower "quantum ethics") i)).length : ℚ)
           + min ((("quantum ethics").length : ℚ) / 10) 30) 100) :=
  ⟨by decide,
   assessProfundity_fallback_pure fwNoApi "quantum ethics" (Except.ok profEnvA)
     (Except.error ()) (by decide)⟩

/-- C4: every successful `processRequest` call adds to `costEstimate` exactly
`inputTokens/1000 * 0.00015 + outputTokens/1000 * 0.0006`; at 1000 input and
1000 output tokens the increment is exactly 0.00075; and `costEstimate` stays
non-negative across any `processRequest` call. -/
theorem processRequest_cost_formula (fw : Framework) (msg : String) (env : ReqEnv)
    (g : GenEnv) (hgen : env.gen = Except.ok g)
    (hok : exceptIsOk (processRequest fw msg env).2.2 = true) :
    ((processRequest fw msg env).1.stats.costEstimate
      = fw.stats.costEstimate
        + ((g.inputTokens : ℚ) / 1000 * inputRate
           + (g.outputTokens : ℚ) / 1000 * outputRate)) ∧
    ((1000 : ℚ) / 1000 * inputRate + (1000 : ℚ) / 1000 * outputRate = 0.00075) ∧
    (∀ (fw2 : Framework) (msg2 : String) (env2 : ReqEnv),
      0 ≤ fw2.stats.costEstimate →
      0 ≤ (processRequest fw2 msg2 env2).1.stats.costEstimate) := by
  obtain ⟨hg, ht⟩ := pr_ok_implies_ready fw msg env hok
  refine ⟨pr_gen_ok_cost fw msg env g hg ht hgen, ?_, ?_⟩
  · simp only [inputRate, outputRate]
    norm_num
  · intro fw2 msg2 env2 h0
    by_cases hgf : fw2.genai = false
    · rw [pr_no_genai _ _ _ hgf]
      exact h0
    · have hg2 : fw2.genai = true := bool_eq_true_of_ne_false _ hgf
      by_cases ht2 : tiersCached fw2 = true
      · cases hgen2 : env2.gen with
        | error u =>
            rw [(pr_gen_err fw2 msg2 env2 hg2 ht2 u hgen2).1, apf_costEstimate]
            exact h0
        | ok g2 =>
            rw [pr_gen_ok_cost fw2 msg2 env2 g2 hg2 ht2 hgen2]
            have hnn : 0 ≤ (g2.inputTokens : ℚ) / 1000 * inputRate
                + (g2.outputTokens : ℚ) / 1000 * outputRate := by
              simp only [inputRate, outputRate]
              positivity
            linarith
      · have h2f : tiersCached fw2 = false := by
          cases h : tiersCached fw2
          · rfl
          · exact absurd h ht2
        rw [pr_no_tiers _ _ _ hg2 h2f]
        exact h0

/-- A generation environment with 1000 input and 1000 output tokens. -/
def genEnvK : GenEnv :=
  { responseText := "ok", inputTokens := 1000, outputTokens := 1000
    responseTime := 2, timestamp := 3 }

/-- A fully successful call environment around `genEnvK`. -/
def envK : ReqEnv := { prof := .ok profEnvA, gen := .ok genEnvK, persist := .ok () }

theorem processRequest_cost_formula_witness :
    (envK.gen = Except.ok genEnvK ∧
     exceptIsOk (processRequest fwInit "hi" envK).2.2 = true) ∧
    (((processRequest fwInit "hi" envK).1.stats.costEstimate
      = fwInit.stats.costEstimate
        + ((genEnvK.inputTokens : ℚ) / 1000 * inputRate
           + (genEnvK.outputTokens : ℚ) / 1000 * outputRate)) ∧
     ((1000 : ℚ) / 1000 * inputRate + (1000 : ℚ) / 1000 * outputRate = 0.00075) ∧
     (∀ (fw2 : Framework) (msg2 : String) (env2 : ReqEnv),
       0 ≤ fw2.stats.costEstimate →
       0 ≤ (processRequest fw2 msg2 env2).1.stats.costEstimate)) :=
  ⟨⟨by decide, by decide⟩,
   processRequest_cost_formula fwInit "hi" envK genEnvK (by decide) (by decide)⟩

theorem urh_window (fw : Framework) (tokens rt ts : ℕ) (m : String)
    (h : 100 ≤ fw.requestHistory.length) :
    (updateRequestHistory fw tokens rt ts m).requestHistory
      = lastN 100 (fw.requestHistory
          ++ [{ timestamp := ts, tokens := tokens, response_time := rt, model := m }]) ∧
    (updateRequestHistory fw tokens rt ts m).stats.averageResponseTime
      = jsRound ((sumResponseTimes (lastN 100 (fw.requestHistory
          ++ [{ timestamp := ts, tokens := tokens, response_time := rt, model := m }])) : ℚ)
          / 100) := by
  have hlen : (fw.requestHistory
      ++ [({ timestamp := ts, tokens := tokens, response_time := rt,
             model := m } : RequestEntry)]).length
        = fw.requestHistory.length + 1 := by simp
  have hgt : (fw.requestHistory
      ++ [({ timestamp := ts, tokens := tokens, response_time := rt,
             model := m } : RequestEntry)]).length > 100 := by omega
  have hdroplen : ((fw.requestHistory
      ++ [({ timestamp := ts, tokens := tokens, response_time := rt,
             model := m } : RequestEntry)]).drop ((fw.requestHistory
      ++ [({ timestamp := ts, tokens := tokens, response_time := rt,
             model := m } : RequestEntry)]).length - 100)).length = 100 := by
    rw [List.length_drop]
    omega
  constructor
  · simp only [updateRequestHistory, lastN]
    rw [if_pos hgt]
  · simp only [updateRequestHistory, lastN]
    rw [if_pos hgt, hdroplen]
    norm_num

/-- C5 (amended): once at least 100 samples are already recorded, a further
recorded sample leaves in the buffer exactly the most recent 100 samples, and
`averageResponseTime` equals the integer-rounded mean (`Math.round`) of those
most recent 100 samples — not of all historical samples. -/
theorem averageResponseTime_window (fw : Framework) (tokens rt ts : ℕ) (m : String)
    (h : 100 ≤ fw.requestHistory.length) :
    (updateRequestHistory fw tokens rt ts m).requestHistory
      = lastN 100 (fw.requestHistory
          ++ [{ timestamp := ts, tokens := tokens, response_time := rt, model := m }]) ∧
    (updateRequestHistory fw tokens rt ts m).stats.averageResponseTime
      = jsRound ((sumResponseTimes (lastN 100 (fw.requestHistory
          ++ [{ timestamp := ts, tokens := tokens, response_time := rt, model := m }])) : ℚ)
          / 100) :=
  urh_window fw tokens rt ts m h

/-- History entry used by the C5 witness state. -/
def entry0 : RequestEntry := { timestamp := 0, tokens := 0, response_time := 0, model := "m" }

/-- A state whose ring buffer is already full with 100 entries. -/
def fw100 : Framework := { fwFresh with requestHistory := List.replicate 100 entry0 }

set_option maxRecDepth 100000 in
theorem averageResponseTime_window_witness :
    100 ≤ fw100.requestHistory.length ∧
    ((updateRequestHistory fw100 0 1 0 "m").requestHistory
      = lastN 100 (fw100.requestHistory
          ++ [{ timestamp := 0, tokens := 0, response_time := 1, model := "m" }]) ∧
     (updateRequestHistory fw100 0 1 0 "m").stats.averageResponseTime
      = jsRound ((sumResponseTimes (lastN 100 (fw100.requestHistory
          ++ [{ timestamp := 0, tokens := 0, response_time := 1, model := "m" }])) : ℚ)
          / 100)) :=
  ⟨by decide, averageResponseTime_window fw100 0 1 0 "m" (by decide)⟩

/-- The 101 recorded response-time samples of the C5 counterexample: one
hundred samples of 0 followed by a single sample of 1. -/
def recordedRTs : List ℕ := List.replicate 100 0 ++ [1]

/-- The state after the first 100 recordings. -/
def fwPre : Framework :=
  (List.replicate 100 0).foldl (fun fw rt => updateRequestHistory fw 0 rt 0 "m") fwFresh

/-- The state after all 101 recordings. -/
def fwC5 : Framework :=
  recordedRTs.foldl (fun fw rt => updateRequestHistory fw 0 rt 0 "m") fwFresh

set_option maxRecDepth 100000 in
theorem averageResponseTime_not_exact_mean :
    100 < recordedRTs.length ∧
    fwC5.requestHistory.length = 100 ∧
    ¬((fwC5.stats.averageResponseTime : ℚ)
        = (sumResponseTimes fwC5.requestHistory : ℚ) / (fwC5.requestHistory.length : ℚ)) := by
  refine ⟨by decide, by decide, ?_⟩
  have hsplit : fwC5 = updateRequestHistory fwPre 0 1 0 "m" := by
    rw [show fwC5 = recordedRTs.foldl
          (fun fw rt => updateRequestHistory fw 0 rt 0 "m") fwFresh from rfl,
        show recordedRTs = List.replicate 100 0 ++ [1] from rfl,
        List.foldl_append]
    rfl
  have hlen : 100 ≤ fwPre.requestHistory.length := by decide
  have hwin := (urh_window fwPre 0 1 0 "m" hlen).2
  have hsum : sumResponseTimes (lastN 100 (fwPre.requestHistory
      ++ [{ timestamp := 0, tokens := 0, response_time := 1, model := "m" }])) = 1 := by
    decide
  rw [hsum] at hwin
  have havg : fwC5.stats.averageResponseTime = 0 := by
    rw [hsplit, hwin, jsRound]
    have harg : ((1 : ℕ) : ℚ) / 100 + 1 / 2 = ((51 : ℕ) : ℚ) / ((100 : ℕ) : ℚ) := by
      push_cast
      norm_num
    rw [harg, Rat.floor_natCast_div_natCast]
    decide
  rw [havg]
  have h1 : sumResponseTimes fwC5.requestHistory = 1 := by decide
  have h2 : fwC5.requestHistory.length = 100 := by decide
  rw [h1, h2]
  push_cast
  norm_num

/-- C8 (amended): when the generation step of `processRequest` fails, the call
rejects with the upstream error and the resulting state is exactly the state
left by the profundity-assessment step — the generation-step statistics
(`inputTokens`, `outputTokens`, `finalResponseTokens`, `costEstimate`) and the
cached-context statistics are unchanged, and if the assessment block itself
also failed, every statistics field is unchanged. -/
theorem processRequest_upstream_stats (fw : Framework) (msg : String) (env : ReqEnv)
    (u : Unit) (hgen : env.gen = Except.error u)
    (hg : fw.genai = true) (ht : tiersCached fw = true) :
    (processRequest fw msg env).2.2 = Except.error ReqError.upstream ∧
    (processRequest fw msg env).1 = (assessProfundity fw msg env.prof).1 ∧
    ((processRequest fw msg env).1.stats.inputTokens = fw.stats.inputTokens ∧
     (processRequest fw msg env).1.stats.outputTokens = fw.stats.outputTokens ∧
     (processRequest fw msg env).1.stats.finalResponseTokens
       = fw.stats.finalResponseTokens ∧
     (processRequest fw msg env).1.stats.costEstimate = fw.stats.costEstimate ∧
     (processRequest fw msg env).1.stats.cachedTokens = fw.stats.cachedTokens ∧
     (processRequest fw msg env).1.stats.tier1Tokens = fw.stats.tier1Tokens ∧
     (processRequest fw msg env).1.stats.tier2Tokens = fw.stats.tier2Tokens ∧
     (processRequest fw msg env).1.stats.tier3Tokens = fw.stats.tier3Tokens) ∧
    (∀ v : Unit, env.prof = Except.error v → (processRequest fw msg env).1 = fw) := by
  obtain ⟨hstate, herr⟩ := pr_gen_err fw msg env hg ht u hgen
  refine ⟨herr, hstate, ?_, ?_⟩
  · rw [hstate]
    exact ⟨apf_inputTokens fw msg env.prof, apf_outputTokens fw msg env.prof,
           apf_finalResponseTokens fw msg env.prof, apf_costEstimate fw msg env.prof,
           apf_cachedTokens fw msg env.prof, apf_tier1 fw msg env.prof,
           apf_tier2 fw msg env.prof, apf_tier3 fw msg env.prof⟩
  · intro v hv
    rw [hstate, hv, apf_err_state fw msg v hg]

/-- Call environment whose generation step rejects while the profundity
assessment succeeded and counted 5 tokens. -/
def envC8 : ReqEnv := { prof := .ok profEnvA, gen := .error (), persist := .ok () }

theorem processRequest_upstream_changes_stats :
    (processRequest fwInit "hi" envC8).2.2 = Except.error ReqError.upstream ∧
    ¬((processRequest fwInit "hi" envC8).1.stats = fwInit.stats) := by
  constructor
  · decide
  · decide

theorem processRequest_upstream_stats_witness :
    (envC8.gen = Except.error () ∧ fwInit.genai = true ∧ tiersCached fwInit = true) ∧
    ((processRequest fwInit "hi" envC8).2.2 = Except.error ReqError.upstream ∧
     (processRequest fwInit "hi" envC8).1 = (assessProfundity fwInit "hi" envC8.prof).1 ∧
     ((processRequest fwInit "hi" envC8).1.stats.inputTokens = fwInit.stats.inputTokens ∧
      (processRequest fwInit "hi" envC8).1.stats.outputTokens = fwInit.stats.outputTokens ∧
      (processRequest fwInit "hi" envC8).1.stats.finalResponseTokens
        = fwInit.stats.finalResponseTokens ∧
      (processRequest fwInit "hi" envC8).1.stats.costEstimate = fwInit.stats.costEstimate ∧
      (processRequest fwInit "hi" envC8).1.stats.cachedTokens = fwInit.stats.cachedTokens ∧
      (processRequest fwInit "hi" envC8).1.stats.tier1Tokens = fwInit.stats.tier1Tokens ∧
      (processRequest fwInit "hi" envC8).1.stats.tier2Tokens = fwInit.stats.tier2Tokens ∧
      (processRequest fwInit "hi" envC8).1.stats.tier3Tokens = fwInit.stats.tier3Tokens) ∧
     (∀ v : Unit, envC8.prof = Except.error v →
        (processRequest fwInit "hi" envC8).1 = fwInit)) :=
  ⟨⟨by decide, by decide, by decide⟩,
   processRequest_upstream_stats fwInit "hi" envC8 () (by decide) (by decide) (by decide)⟩

/-- C1 counterexample state: a successful `initializeTiers` (cached total 60)
followed by one fully successful `processRequest` (5 assessment tokens,
7 input, 11 output) yields `totalTokensUsed = 23`, not
`(7 + 11) + 60 = 78` as the claimed equation demands. -/
theorem totalTokens_claim_fails :
    (initializeTiers fwFresh "alpha" "beta" "gamma" (Except.ok (10, 20, 30))).2.1 = true ∧
    exceptIsOk (processRequest fwInit "hi" envA).2.2 = true ∧
    ¬((processRequest fwInit "hi" envA).1.stats.totalTokensUsed
        = (genEnvA.inputTokens + genEnvA.outputTokens) + fwInit.stats.cachedTokens) := by
  refine ⟨by decide, by decide, by decide⟩

/-- C1 (amended): across any sequence of successful `processRequest` calls,
`totalTokensUsed` grows by exactly the sum over the calls of that call's
profundity-assessment tokens plus generation input plus output tokens; the
cached-context total is never added to it; and it never decreases across
`processRequest`, `assessProfundity`, `initializeTiers` — nor across
`clearCache`, which leaves it unchanged. -/
theorem totalTokens_accounting :
    (∀ (fw : Framework) (reqs : List (String × ReqEnv)),
      allSucceed fw reqs = true →
      (runRequests fw reqs).stats.totalTokensUsed
        = fw.stats.totalTokensUsed + (reqs.map (fun p => callTokens p.2)).sum) ∧
    (∀ (fw : Framework) (msg : String) (env : ReqEnv),
      fw.stats.totalTokensUsed ≤ (processRequest fw msg env).1.stats.totalTokensUsed) ∧
    (∀ (fw : Framework) (msg : String) (env : Except Unit ProfEnv),
      fw.stats.totalTokensUsed ≤ (assessProfundity fw msg env).1.stats.totalTokensUsed) ∧
    (∀ (fw : Framework) (t1 t2 t3 : String) (env : Except Unit (ℕ × ℕ × ℕ)),
      (initializeTiers fw t1 t2 t3 env).1.stats.totalTokensUsed
        = fw.stats.totalTokensUsed) ∧
    (∀ fw : Framework,
      (clearCache fw).stats.totalTokensUsed = fw.stats.totalTokensUsed) := by
  refine ⟨?_, pr_total_mono, apf_totalTokens_mono, ?_, fun fw => rfl⟩
  · intro fw reqs
    induction reqs generalizing fw with
    | nil =>
        intro _
        simp [runRequests]
    | cons hd tl ih =>
        intro h
        obtain ⟨msg, env⟩ := hd
        simp only [allSucceed, Bool.and_eq_true] at h
        simp only [runRequests, List.map_cons, List.sum_cons]
        rw [ih _ h.2, pr_total_delta fw msg env h.1]
        omega
  · intro fw t1 t2 t3 env
    by_cases h : fw.genai = false
    · simp [initializeTiers, h]
    · cases env with
      | error u => simp [initializeTiers, h]
      | ok v =>
          obtain ⟨a, b, c⟩ := v
          simp [initializeTiers, h]

theorem totalTokens_accounting_witness :
    allSucceed fwInit [("hi", envA)] = true ∧
    (runRequests fwInit [("hi", envA)]).stats.totalTokensUsed
      = fwInit.stats.totalTokensUsed
        + (([("hi", envA)]).map (fun p => callTokens p.2)).sum :=
  ⟨by decide, totalTokens_accounting.1 fwInit [("hi", envA)] (by decide)⟩
